import Mathlib

/-!
Verification development for the cinema-aggregator repository.

The Python services under `core/services` are shallowly embedded below:
pure data flow becomes Lean functions over explicit payload structures,
Python dicts become association lists with insertion-order semantics,
Python floats on the rating paths become exact rationals, and every call
to an external HTTP service or to the shared cache is passed in as an
explicit parameter (an oracle), so that each function is a pure function
of the payloads the network would have produced.  Exceptions are modelled
with `Outcome`/`Except`.
-/

set_option autoImplicit false
set_option linter.unusedVariables false

namespace CinemaAgg

/-- Result of a call that may raise a Python exception: `ok` carries the
returned value, `exn` stands for any raised exception (the callers we
model catch all exceptions alike, so the exception payload is dropped). -/
inductive Outcome (α : Type) where
  | ok : α → Outcome α
  | exn : Outcome α
  deriving DecidableEq, Repr

/-! ### Python `dict` as an association list

Insertion-order preserving, unique keys when built from the operations
below: writing an existing key overwrites in place, a new key is appended
at the end — the semantics of CPython dicts relied on by the services. -/

/-- Lookup `d[k]`: first entry whose key equals `k`. -/
def dictGet {V : Type} (d : List (String × V)) (k : String) : Option V :=
  match d with
  | [] => none
  | p :: rest => if p.1 = k then some p.2 else dictGet rest k

/-- Assignment `d[k] = v`: overwrite in place when the key is present, else append. -/
def dictInsert {V : Type} (d : List (String × V)) (k : String) (v : V) :
    List (String × V) :=
  match d with
  | [] => [(k, v)]
  | p :: rest =>
      if p.1 = k then (k, v) :: rest else p :: dictInsert rest k v

/-- Update `d.update(e)`: insert every entry of `e` into `d`, left to right. -/
def dictUpdate {V : Type} (d e : List (String × V)) : List (String × V) :=
  e.foldl (fun acc p => dictInsert acc p.1 p.2) d

/-- Membership test `k in d`. -/
def dictMem {V : Type} (d : List (String × V)) (k : String) : Bool :=
  (dictGet d k).isSome

theorem dictUpdate_nil {V : Type} (d : List (String × V)) :
    dictUpdate d [] = d := rfl

theorem dictUpdate_cons {V : Type} (d : List (String × V)) (p : String × V)
    (e : List (String × V)) :
    dictUpdate d (p :: e) = dictUpdate (dictInsert d p.1 p.2) e := rfl

theorem dictGet_dictInsert {V : Type} (d : List (String × V)) (k k' : String)
    (v : V) :
    dictGet (dictInsert d k v) k' = if k' = k then some v else dictGet d k' := by
  induction d with
  | nil =>
      by_cases h : k' = k
      · subst h; simp [dictInsert, dictGet]
      · simp [dictInsert, dictGet, h, Ne.symm h]
  | cons p rest ih =>
      by_cases hpk : p.1 = k <;> by_cases h : k' = k
      · subst h; simp [dictInsert, dictGet, hpk]
      · simp [dictInsert, dictGet, hpk, h, Ne.symm h]
      · subst h; simp [dictInsert, dictGet, hpk, ih]
      · simp [dictInsert, dictGet, hpk, h, ih]

theorem dictGet_dictUpdate_of_not_mem {V : Type} (d e : List (String × V))
    (k : String) (h : ∀ p ∈ e, p.1 ≠ k) :
    dictGet (dictUpdate d e) k = dictGet d k := by
  induction e generalizing d with
  | nil => rfl
  | cons p rest ih =>
      have hp : p.1 ≠ k := h p (List.mem_cons_self p rest)
      rw [dictUpdate_cons,
        ih (dictInsert d p.1 p.2) (fun q hq => h q (List.mem_cons_of_mem p hq)),
        dictGet_dictInsert, if_neg (fun h2 => hp h2.symm)]

/-- For an update map with pairwise-distinct keys, any key present in the
update map reads back the updated value. -/
theorem dictGet_dictUpdate_of_mem {V : Type} (d e : List (String × V))
    (k : String) (hnd : (e.map Prod.fst).Nodup)
    (hmem : (dictGet e k).isSome) :
    dictGet (dictUpdate d e) k = dictGet e k := by
  induction e generalizing d with
  | nil => simp [dictGet] at hmem
  | cons p rest ih =>
      rw [List.map_cons, List.nodup_cons] at hnd
      by_cases hpk : p.1 = k
      · have hrest : ∀ q ∈ rest, q.1 ≠ k := by
          intro q hq hqk
          have hmap : q.1 ∈ rest.map Prod.fst := List.mem_map_of_mem Prod.fst hq
          rw [hqk, ← hpk] at hmap
          exact hnd.1 hmap
        rw [dictUpdate_cons, dictGet_dictUpdate_of_not_mem _ _ _ hrest,
          dictGet_dictInsert, if_pos hpk.symm, dictGet, if_pos hpk]
      · rw [dictGet, if_neg hpk] at hmem ⊢
        rw [dictUpdate_cons]
        exact ih _ hnd.2 hmem

/-! ### Python scalar helpers -/

/-- Truthiness of an optional integer field (`None` and `0` are falsy). -/
def intOptTruthy : Option ℤ → Bool
  | none => false
  | some n => n ≠ 0

/-- Truthiness of an optional string field (`None` and `""` are falsy). -/
def strOptTruthy : Option String → Bool
  | none => false
  | some s => s ≠ ""

/-- Does the second character list occur at the head of the first? -/
def startsWithList : List Char → List Char → Bool
  | _, [] => true
  | [], _ :: _ => false
  | c :: cs, d :: ds => c = d && startsWithList cs ds

/-- Does the second character list occur anywhere inside the first? -/
def subOccurs : List Char → List Char → Bool
  | [], sub => sub.isEmpty
  | s@(_ :: rest), sub => startsWithList s sub || subOccurs rest sub

/-- Python `sub in s` for a non-empty `sub` (the only way the services use
it): true iff `sub` occurs as a substring of `s`. -/
def strContains (s sub : String) : Bool :=
  subOccurs s.data sub.data

/-- Python `s.replace(c, "")` for a one-character pattern (the only
patterns the services pass: `"%"` and `","`): every occurrence of the
character is removed. -/
def pyReplaceChar (s : String) (c : Char) : String :=
  ⟨s.data.filter (fun d => d ≠ c)⟩

/-- Python `s.split(sep)` for a one-character separator (the services only
split on `"/"`). -/
def splitOnChar : List Char → Char → List (List Char)
  | [], _ => [[]]
  | c :: rest, sep =>
      if c = sep then [] :: splitOnChar rest sep
      else
        match splitOnChar rest sep with
        | h :: t => (c :: h) :: t
        | [] => [[c]]

/-- Value of a digit string (most significant first). -/
def digitsVal (l : List Char) : ℕ :=
  l.foldl (fun n c => n * 10 + (c.toNat - ('0').toNat)) 0

/-- Unsigned-digit-run parse shared by `pyInt?`. -/
def digitsParse (ds : List Char) : Option ℕ :=
  if ds ≠ [] ∧ ds.all Char.isDigit then some (digitsVal ds) else none

/-- Python `int(s)` on a character list: optional sign followed by at
least one digit; `none` models the `ValueError` raised otherwise. -/
def pyInt? (l : List Char) : Option ℤ :=
  match l with
  | [] => none
  | c :: ds =>
      if c = '-' then (digitsParse ds).map (fun n => -(n : ℤ))
      else if c = '+' then (digitsParse ds).map (fun n => (n : ℤ))
      else (digitsParse (c :: ds)).map (fun n => (n : ℤ))

/-- Python `s.isdigit()` restricted to ASCII digits, which is all the OMDb
vote-count strings contain. -/
def pyIsdigit (s : String) : Bool :=
  s ≠ "" && s.data.all Char.isDigit

/-- Decimal-literal parse shared by `pyFloat`: digits with an optional
single decimal point, at least one digit overall. -/
def pyFloatBody (body : List Char) : Option ℚ :=
  let ip := body.takeWhile (fun c => c ≠ '.')
  let rest := body.dropWhile (fun c => c ≠ '.')
  match rest with
  | [] =>
      if ip.all Char.isDigit ∧ ip ≠ [] then some (digitsVal ip) else none
  | _ :: fp =>
      if ip.all Char.isDigit ∧ fp.all Char.isDigit ∧ (ip ≠ [] ∨ fp ≠ []) then
        some ((digitsVal ip : ℚ) + (digitsVal fp : ℚ) / (10 : ℚ) ^ fp.length)
      else none

/-- Python `float(s)` on the plain decimal literals the rating fields carry
(optional sign, digits, optional single decimal point).  `none` models the
`ValueError` such a call raises on any other string, e.g. `float("N/A")`. -/
def pyFloat (s : String) : Option ℚ :=
  match s.data with
  | [] => none
  | c :: body =>
      if c = '-' then (pyFloatBody body).map (fun q => -q)
      else if c = '+' then pyFloatBody body
      else pyFloatBody (c :: body)

/-! ### Rounding

`round(x, 2)` in CPython rounds to the nearest multiple of 1/100,
breaking ties towards the even hundredth (banker's rounding); the same
tie-breaking rule is the default context of `Decimal.quantize` used by
`RatingCalculator`.  We model it exactly on rationals. -/

/-- Round to the nearest integer, ties to the even integer. -/
def roundHalfEven (x : ℚ) : ℤ :=
  if x - ⌊x⌋ < 1/2 then ⌊x⌋
  else if 1/2 < x - ⌊x⌋ then ⌊x⌋ + 1
  else if ⌊x⌋ % 2 = 0 then ⌊x⌋ else ⌊x⌋ + 1

/-- CPython `round(x, 2)` on exactly-representable inputs. -/
def pyRound2 (x : ℚ) : ℚ :=
  ((roundHalfEven (x * 100) : ℤ) : ℚ) / 100

/-- Modelled from the spec: the rounding rule §4.4 prescribes in the words
"rounded to 2 decimal places using round-half-up (a mean of exactly x.xx5
rounds away from zero)", for non-negative inputs.  Stated only to be
compared against the code's rounding; no source function computes this. -/
def specRoundHalfUp2 (x : ℚ) : ℚ :=
  ((if x * 100 - ⌊x * 100⌋ < 1/2 then ⌊x * 100⌋ else ⌊x * 100⌋ + 1 : ℤ) : ℚ) / 100

theorem roundHalfEven_dist (x : ℚ) : |((roundHalfEven x : ℤ) : ℚ) - x| ≤ 1/2 := by
  have h1 : ((⌊x⌋ : ℤ) : ℚ) ≤ x := Int.floor_le x
  have h2 : x < ⌊x⌋ + 1 := Int.lt_floor_add_one x
  unfold roundHalfEven
  by_cases hlt : x - ⌊x⌋ < 1/2
  · rw [if_pos hlt, abs_le]; constructor <;> linarith
  · rw [if_neg hlt]
    by_cases hgt : 1/2 < x - ⌊x⌋
    · rw [if_pos hgt, abs_le]; push_cast; constructor <;> linarith
    · rw [if_neg hgt]
      have heq : x - ⌊x⌋ = 1/2 := le_antisymm (not_lt.mp hgt) (not_lt.mp hlt)
      by_cases hpar : ⌊x⌋ % 2 = 0
      · rw [if_pos hpar, abs_le]; constructor <;> linarith
      · rw [if_neg hpar, abs_le]; push_cast; constructor <;> linarith

theorem roundHalfEven_of_half (x : ℚ) (h : x - ⌊x⌋ = 1/2) :
    roundHalfEven x = if ⌊x⌋ % 2 = 0 then ⌊x⌋ else ⌊x⌋ + 1 := by
  unfold roundHalfEven
  rw [h, if_neg (by norm_num), if_neg (by norm_num)]

/-! ### Rating entries

The rating dictionaries the adapters build: `value`, `max_value`, an
optional `votes` key, and the `normalized_value` key the aggregator adds
later (absent until then). -/

structure RatingEntry where
  value : ℚ
  max_value : ℚ
  votes : Option ℕ := none
  normalized_value : Option ℚ := none
  deriving DecidableEq, Repr

/-- The in-place update of `film_aggregator.get_film_data` lines 83–86 on a
single entry: when `max_value > 0`, set
`normalized_value = (value / max_value) * 10`. -/
def normalizeEntry (r : RatingEntry) : RatingEntry :=
  if 0 < r.max_value then
    { r with normalized_value := some (r.value / r.max_value * 10) }
  else r

/-- Model of `Rating.save`, `core/models.py` lines 283–290: the stored
`normalized_value` after saving a rating whose `value`/`max_value` columns
hold the given optionals, starting from a previous stored value. -/
def rating_save_normalized (value max_value : Option ℚ) (old : Option ℚ) :
    Option ℚ :=
  match value, max_value with
  | some v, some m => if 0 < m then some (v / m * 10) else old
  | _, _ => old

/-! ### OMDb adapter (`core/services/omdb_service.py`)

`get_movie_ratings` parses the JSON payload returned by the OMDb API.
The payload fields actually read are modelled; a field set to `none`
stands for an absent key.  `Except.error ()` models an exception escaping
the method (an unparsable numeric string makes `float()` raise, an `"x/y"`
with more than one slash makes the tuple unpacking raise); callers catch
all exceptions alike. -/

structure OmdbPayload where
  response : Option String := none
  imdbRating : Option String := none
  imdbVotes : Option String := none
  metascore : Option String := none
  ratingsArr : Option (List (String × String)) := none
  deriving DecidableEq, Repr

/-- Lines 91–98: the IMDb block of `get_movie_ratings`. -/
def omdbImdbStep (d : OmdbPayload) (acc : List (String × RatingEntry)) :
    Except Unit (List (String × RatingEntry)) :=
  match d.imdbRating with
  | none => .ok acc
  | some r =>
      if r ≠ "N/A" then
        let votes := pyReplaceChar (d.imdbVotes.getD "0") ','
        match pyFloat r with
        | some v =>
            .ok (dictInsert acc "imdb"
              { value := v, max_value := 10,
                votes := some (if pyIsdigit votes then digitsVal votes.data else 0) })
        | none => .error ()
      else .ok acc

/-- Lines 100–105: the Metascore block of `get_movie_ratings`. -/
def omdbMetascoreStep (d : OmdbPayload) (acc : List (String × RatingEntry)) :
    Except Unit (List (String × RatingEntry)) :=
  match d.metascore with
  | none => .ok acc
  | some r =>
      if r ≠ "N/A" then
        match pyFloat r with
        | some v => .ok (dictInsert acc "metacritic" { value := v, max_value := 100 })
        | none => .error ()
      else .ok acc

/-- Lines 108–128: one iteration of the loop over the `Ratings` array,
an entry being a `(Source, Value)` pair. -/
def processRatingEntry (acc : List (String × RatingEntry)) (e : String × String) :
    Except Unit (List (String × RatingEntry)) :=
  if strContains e.1 "Rotten Tomatoes" then
    if strContains e.2 "%" then
      match pyFloat (pyReplaceChar e.2 '%') with
      | some v => .ok (dictInsert acc "rotten_tomatoes" { value := v, max_value := 100 })
      | none => .error ()
    else .ok acc
  else if strContains e.1 "Metacritic" then
    if strContains e.2 "/" then
      match splitOnChar e.2.data '/' with
      | [valStr, maxStr] =>
          match pyFloat ⟨valStr⟩, pyFloat ⟨maxStr⟩ with
          | some v, some m => .ok (dictInsert acc "metacritic" { value := v, max_value := m })
          | _, _ => .error ()
      | _ => .error ()
    else .ok acc
  else .ok acc

/-- The loop over the `Ratings` array: each entry processed in order, an
exception aborting the rest. -/
def processRatingsArr (acc : List (String × RatingEntry)) :
    List (String × String) → Except Unit (List (String × RatingEntry))
  | [] => .ok acc
  | e :: rest =>
      match processRatingEntry acc e with
      | .ok acc2 => processRatingsArr acc2 rest
      | .error u => .error u

/-- Model of `OMDbService.get_movie_ratings`, lines 84–130 as a function of the
payload the transport returned. -/
def get_movie_ratings (d : OmdbPayload) :
    Except Unit (List (String × RatingEntry)) :=
  if d.response = some "False" then .ok []
  else
    match omdbImdbStep d [] with
    | .error u => .error u
    | .ok r1 =>
        match omdbMetascoreStep d r1 with
        | .error u => .error u
        | .ok r2 =>
            match d.ratingsArr with
            | some arr => processRatingsArr r2 arr
            | none => .ok r2

/-! ### Kinopoisk adapter (`core/services/kinopoisk_service.py`) -/

/-- The fields of a Kinopoisk film payload the services read. -/
structure KpPayload where
  kinopoiskId : Option ℤ := none
  kinopoisk_id : Option ℤ := none
  idField : Option ℤ := none
  imdbId : Option String := none
  nameRu : Option String := none
  nameEn : Option String := none
  nameOriginal : Option String := none
  year : Option ℤ := none
  ratingKinopoisk : Option ℚ := none
  ratingKinopoiskVoteCount : Option ℕ := none
  ratingImdb : Option ℚ := none
  ratingImdbVoteCount : Option ℕ := none
  deriving DecidableEq, Repr

/-- Line 54: `result.get('kinopoiskId') or result.get('kinopoisk_id') or
result.get('id')` — Python `or` returns the first truthy operand, else the
value of the last one. -/
def kpResolvedId (p : KpPayload) : Option ℤ :=
  if intOptTruthy p.kinopoiskId then p.kinopoiskId
  else if intOptTruthy p.kinopoisk_id then p.kinopoisk_id
  else p.idField

/-- Model of `KinopoiskService.get_movie_details`, lines 39–63 as a function of the
transport's response.  `fetch = .exn` models `_make_request` raising (the
method catches every exception and returns `{}`); `.ok none` models a
falsy response body; the returned `none` models the `{}` the method
returns on any of: empty body, exception, or embedded-ID mismatch. -/
def kp_get_movie_details (kinopoisk_id : ℤ)
    (fetch : Outcome (Option KpPayload)) : Option KpPayload :=
  match fetch with
  | .exn => none
  | .ok none => none
  | .ok (some p) =>
      match kpResolvedId p with
      | some n => if n = kinopoisk_id then some p else none
      | none => none

/-- Model of `KinopoiskService.get_movie_by_imdb_id`, lines 131–154 as a function of
the two searches it can issue.  `searchByImdbKeyword` is the result of
`search_movies(imdb_id, year=year)`: `.ok none` models a payload without
an `items` key, `.ok (some items)` one with it.  `searchByCleanTitle` is
the result of the fallback `search_movies(clean_title, year=year)`; the
requested `year` only shapes those outgoing queries.  Every exception is
caught and yields `none`. -/
def kp_get_movie_by_imdb_id (imdb_id : String) (film_title : Option String)
    (year : Option ℤ)
    (searchByImdbKeyword : Outcome (Option (List KpPayload)))
    (searchByCleanTitle : Outcome (Option (List KpPayload))) :
    Option KpPayload :=
  match searchByImdbKeyword with
  | .exn => none
  | .ok items? =>
      match (items?.getD []).find? (fun f => f.imdbId == some imdb_id) with
      | some f => some f
      | none =>
          if strOptTruthy film_title then
            match searchByCleanTitle with
            | .exn => none
            | .ok (some (f :: _)) => some f
            | .ok _ => none
          else none

/-! ### TMDB adapter (`core/services/tmdb_service.py`) -/

/-- The fields of a TMDB movie payload the services read (the credits,
genres, countries, poster and overview fields are carried through
verbatim by the aggregator and are not involved in any claim). -/
structure TmdbPayload where
  idField : Option ℤ := none
  title : String := ""
  original_title : String := ""
  release_date : String := ""
  imdb_id : String := ""
  vote_average : Option ℚ := none
  vote_count : Option ℕ := none
  deriving DecidableEq, Repr

/-- Model of `TMDBService.get_movie_details`, lines 60–87 as a function of the cache
read and the transport response.  A cached payload is returned as is;
otherwise the fetched payload is validated: on an embedded-ID mismatch the
method returns `None` (modelled `.ok none`).  A transport error is not
caught here and propagates (`.exn`). -/
def tmdb_get_movie_details (tmdb_id : ℤ) (cached : Option TmdbPayload)
    (fetch : Outcome TmdbPayload) : Outcome (Option TmdbPayload) :=
  match cached with
  | some c => .ok (some c)
  | none =>
      match fetch with
      | .exn => .exn
      | .ok p => if p.idField = some tmdb_id then .ok (some p) else .ok none

/-! ### Resilient request gateway (`core/services/base_api.py`)

`BaseAPIClient._make_request` lines 91–165.  A JSON body is modelled as a
Python value; what the next network attempt would produce is an oracle
`attempts : ℕ → AttemptResult`; the cache read at the computed key is the
parameter `cached` (the TTL lives inside the external cache store: a
value still returned by `cache.get` is by definition within its TTL). -/

inductive PyVal where
  | null
  | boolean (b : Bool)
  | number (q : ℚ)
  | str (s : String)
  | arr (elems : List PyVal)
  | obj (entries : List (String × PyVal))
  deriving Inhabited

/-- Python truthiness of a JSON value. -/
def PyVal.truthy : PyVal → Bool
  | .null => false
  | .boolean b => b
  | .number q => q ≠ 0
  | .str s => s ≠ ""
  | .arr l => !l.isEmpty
  | .obj l => !l.isEmpty

/-- One network attempt: an HTTP response with a status and a body
(`none` = the body did not parse as JSON), or a transport-level failure
(timeout, connection reset — `requests.exceptions.RequestException`). -/
inductive AttemptResult where
  | http (status : ℕ) (body : Option PyVal)
  | transportErr

/-- The failure taxonomy of `handle_error` plus the two non-HTTP cases. -/
inductive FailCause where
  | rateLimited
  | clientError (status : ℕ)
  | serverError (status : ℕ)
  | parseError
  | transport
  deriving DecidableEq, Repr

/-- Classification of one attempt, following lines 139–145 and 71–89:
status 429 raises `APIRateLimitError`; other 4xx and 5xx raise
`APIRequestError`; on a sub-400 status the body must parse as JSON. -/
def classifyAttempt : AttemptResult → PyVal ⊕ FailCause
  | .transportErr => .inr .transport
  | .http s b =>
      if s = 429 then .inr .rateLimited
      else if 400 ≤ s ∧ s < 500 then .inr (.clientError s)
      else if 500 ≤ s then .inr (.serverError s)
      else
        match b with
        | some v => .inl v
        | none => .inr .parseError

/-- Outcome of `_make_request`: a parsed body (with how many attempts were
made and whether it came from the cache), or a single terminal
`APIRequestError` carrying the recorded cause (`none` only when the loop
body never ran). -/
inductive ReqResult where
  | success (body : PyVal) (attemptsUsed : ℕ) (fromCache : Bool)
  | failure (cause : Option FailCause) (attemptsUsed : ℕ)

/-- The retry loop, lines 125–165.  `i` attempts have already been made
and `last` is `last_exception`; `remaining` attempts are left.  A
rate-limited attempt always waits and loops (the post-loop raise at line
165 reports `last_exception` when the budget runs out); any other failure
re-raises a terminal `APIRequestError` right away on the final attempt
(line 163). -/
def requestLoopAux (attempts : ℕ → AttemptResult) (last : Option FailCause)
    (i : ℕ) : (remaining : ℕ) → ReqResult
  | 0 => .failure last i
  | r + 1 =>
      match classifyAttempt (attempts i) with
      | .inl body => .success body (i + 1) false
      | .inr .rateLimited => requestLoopAux attempts (some .rateLimited) (i + 1) r
      | .inr c =>
          if r = 0 then .failure (some c) (i + 1)
          else requestLoopAux attempts (some c) (i + 1) r

/-- Python `s.upper()`. -/
def pyUpper (s : String) : String :=
  ⟨s.data.map Char.toUpper⟩

/-- Model of `_make_request` itself.  `retries or DEFAULT_RETRIES` turns a falsy
retry budget into 3; a truthy cached body short-circuits the network when
caching applies to the request (`use_cache` and a GET method). -/
def make_request (method : String) (use_cache : Bool)
    (cached : Option PyVal) (attempts : ℕ → AttemptResult)
    (retries : ℕ) : ReqResult :=
  let effRetries := if retries = 0 then 3 else retries
  if use_cache && pyUpper method == "GET" &&
      (match cached with | some v => v.truthy | none => false) then
    .success (cached.getD .null) 0 true
  else
    requestLoopAux attempts none 0 effRetries

/-! ### Aggregation orchestrator (`core/services/film_aggregator.py`)

`get_film_data` and `_get_all_ratings` as functions of the primary
payload and of what each secondary-provider call would return.  Each
`Outcome` parameter is the result of one service call inside one of the
`try` blocks; `.exn` models that call raising (the block catches it and
moves on). -/

/-- Model of `_get_all_ratings`, lines 185–218.
`omdbRatings` is `omdb_service.get_movie_ratings(imdb_id)`;
`kpByImdb` is `kinopoisk_service.get_movie_by_imdb_id(imdb_id)`;
`kpRatingsByImdb` is `get_movie_rating(kinopoisk_movie)` on its result;
`kpSearchItems` is `search_movies(title, year)['items']` (absent or empty
both modelled `[]`); `kpRatingsBySearch` is `get_movie_rating` on the
first search item.  `year` only shapes the outgoing search query. -/
def get_all_ratings (imdb_id : String) (title : String) (year : Option ℤ)
    (omdbRatings : Outcome (List (String × RatingEntry)))
    (kpByImdb : Outcome (Option KpPayload))
    (kpRatingsByImdb : Outcome (List (String × RatingEntry)))
    (kpSearchItems : Outcome (List KpPayload))
    (kpRatingsBySearch : Outcome (List (String × RatingEntry))) :
    List (String × RatingEntry) :=
  let r0 : List (String × RatingEntry) := []
  let r1 :=
    if imdb_id ≠ "" then
      match omdbRatings with
      | .ok d => dictUpdate r0 d
      | .exn => r0
    else r0
  let r2 :=
    if imdb_id ≠ "" then
      match kpByImdb with
      | .ok (some _) =>
          match kpRatingsByImdb with
          | .ok d => dictUpdate r1 d
          | .exn => r1
      | _ => r1
    else r1
  if ¬ dictMem r2 "kinopoisk" ∧ title ≠ "" then
    match kpSearchItems with
    | .ok (_ :: _) =>
        match kpRatingsBySearch with
        | .ok d =>
            match dictGet d "kinopoisk" with
            | some v => dictInsert r2 "kinopoisk" v
            | none => r2
        | .exn => r2
    | _ => r2
  else r2

/-- Line 58: `int(release_date[:4]) if release_date and len(release_date)
>= 4 else None`; a `ValueError` from `int` (`.error`) would escape to the
outer handler of `get_film_data`. -/
def parseYear (release_date : String) : Except Unit (Option ℤ) :=
  if release_date ≠ "" ∧ 4 ≤ release_date.data.length then
    match pyInt? (release_date.data.take 4) with
    | some y => .ok (some y)
    | none => .error ()
  else .ok none

/-- Lines 81–86: the normalized values appended by the loop, in
iteration order (the entries always carry both keys in this typed model,
so only the `max_value > 0` guard filters). -/
def normalizedList : List (String × RatingEntry) → List ℚ
  | [] => []
  | p :: rest =>
      if 0 < p.2.max_value then
        p.2.value / p.2.max_value * 10 :: normalizedList rest
      else normalizedList rest

/-- The dictionary the aggregator returns: the same entries, each mutated
in place by the normalization loop. -/
def normalizeRatingsDict (ratings : List (String × RatingEntry)) :
    List (String × RatingEntry) :=
  ratings.map (fun p => (p.1, normalizeEntry p.2))

/-- The unified record `get_film_data` builds (the fields involved in the
claims; description, poster, genres, countries, runtime, credits are
verbatim copies of payload fields). -/
structure FilmData where
  tmdb_id : Option ℤ
  title : String
  original_title : String
  year : Option ℤ
  imdb_id : String
  tmdb_rating : Option ℚ
  tmdb_votes : Option ℕ
  ratings : List (String × RatingEntry)
  average_rating : Option ℚ
  ratings_count : ℕ
  deriving DecidableEq, Repr

/-- Model of `FilmAggregator.get_film_data`, lines 27–124 as a function of the
primary fetch (`tmdbData` is what `_get_tmdb_movie_data` returned, `none`
for no usable primary record) and the secondary-provider call outcomes,
on a miss of the film-level cache.  The outer `except` turns any escaped
exception (here: a year-parse failure) into `None`. -/
def get_film_data (tmdbData : Option TmdbPayload)
    (omdbRatings : Outcome (List (String × RatingEntry)))
    (kpByImdb : Outcome (Option KpPayload))
    (kpRatingsByImdb : Outcome (List (String × RatingEntry)))
    (kpSearchItems : Outcome (List KpPayload))
    (kpRatingsBySearch : Outcome (List (String × RatingEntry))) :
    Option FilmData :=
  match tmdbData with
  | none => none
  | some d =>
      if d.title = "" then none
      else
        match parseYear d.release_date with
        | .error _ => none
        | .ok year =>
            let ratings := get_all_ratings d.imdb_id d.title year
              omdbRatings kpByImdb kpRatingsByImdb kpSearchItems kpRatingsBySearch
            let normalized := normalizedList ratings
            some {
              tmdb_id := d.idField
              title := d.title
              original_title := d.original_title
              year := year
              imdb_id := d.imdb_id
              tmdb_rating := d.vote_average
              tmdb_votes := d.vote_count
              ratings := normalizeRatingsDict ratings
              average_rating :=
                if normalized ≠ [] then
                  some (pyRound2 (normalized.sum / normalized.length))
                else none
              ratings_count := if normalized ≠ [] then ratings.length else 0 }

/-! ### `core/services/movie_service.py` -/

/-- Model of `MovieService.get_movie_data`, lines 221–227: OMDb ratings are merged
into the ratings dictionary already holding the Kinopoisk-sourced entries,
each source written only when not yet present. -/
def merge_omdb_into (ratings omdb_ratings : List (String × RatingEntry)) :
    List (String × RatingEntry) :=
  omdb_ratings.foldl
    (fun acc p => if dictMem acc p.1 then acc else dictInsert acc p.1 p.2)
    ratings

/-- The fields of one TMDB search result `_find_tmdb_id_for_film`
reads. -/
structure TmdbSearchResult where
  idField : Option ℤ := none
  release_date : String := ""
  title : String := ""
  original_title : String := ""
  deriving DecidableEq, Repr

/-- One iteration of the search-attempt loop of `_find_tmdb_id_for_film`,
lines 99–118, on the result list of one title search: only the first
result is examined; it must carry a truthy `release_date`; the year test
`not year or not result_year or abs(result_year - year) <= 2` accepts
whenever either year is falsy or they differ by at most 2; no title is
compared.  An exception inside (unparsable year prefix, missing `id` key)
is caught and the loop moves on. -/
def tmdb_attempt (year : Option ℤ) (res : Outcome (List TmdbSearchResult)) :
    Option ℤ :=
  match res with
  | .exn => none
  | .ok [] => none
  | .ok (first :: _) =>
      if first.release_date ≠ "" then
        match pyInt? (first.release_date.data.take 4) with
        | none => none
        | some ry =>
            if ¬ intOptTruthy year = true ∨ ry = 0 ∨ |ry - year.getD 0| ≤ 2 then
              first.idField
            else none
      else none

/-- Model of `MovieService._find_tmdb_id_for_film`, lines 75–120 as a function of
the TMDB calls it can issue: `findByImdb` is
`find_by_imdb_id(imdb_id)['movie_results']`; `searchTitleRes` and
`searchOrigRes` are the result lists of `search_movies` on the title and
on the original title. -/
def find_tmdb_id_for_film (title original_title : String) (year : Option ℤ)
    (imdb_id : Option String)
    (findByImdb : Outcome (List TmdbSearchResult))
    (searchTitleRes searchOrigRes : Outcome (List TmdbSearchResult)) :
    Option ℤ :=
  let viaImdb : Option ℤ :=
    if strOptTruthy imdb_id then
      match findByImdb with
      | .exn => none
      | .ok (m :: _) =>
          match m.idField with
          | some i => if i ≠ 0 then some i else none
          | none => none
      | .ok [] => none
    else none
  match viaImdb with
  | some i => some i
  | none =>
      let attempts :=
        (if title ≠ "" then [searchTitleRes] else []) ++
        (if original_title ≠ "" ∧ original_title ≠ title then [searchOrigRes] else [])
      attempts.findSome? (tmdb_attempt year)

/-! ## Claims -/

/-- C1: for every raw rating with scale maximum `max > 0` and value in
`[0, max]`, the normalization step (`get_film_data` lines 83–86) produces
`normalized_value = value / max * 10`, this value lies in `[0, 10]`, and
`Rating.save` stores the same derived value. -/
theorem C1_normalized_value_formula_and_bounds (r : RatingEntry)
    (hm : 0 < r.max_value) (h0 : 0 ≤ r.value) (h1 : r.value ≤ r.max_value) :
    (normalizeEntry r).normalized_value = some (r.value / r.max_value * 10) ∧
    0 ≤ r.value / r.max_value * 10 ∧ r.value / r.max_value * 10 ≤ 10 ∧
    rating_save_normalized (some r.value) (some r.max_value) none =
      some (r.value / r.max_value * 10) := by
  refine ⟨?_, ?_, ?_, ?_⟩
  · unfold normalizeEntry; rw [if_pos hm]
  · exact mul_nonneg (div_nonneg h0 hm.le) (by norm_num)
  · have hle : r.value / r.max_value ≤ 1 := (div_le_one hm).mpr h1
    nlinarith
  · simp only [rating_save_normalized]; rw [if_pos hm]

/-- Witness for C1 at the rating 7.5 out of 10. -/
theorem C1_normalized_value_formula_and_bounds_witness :
    (normalizeEntry { value := 15/2, max_value := 10 }).normalized_value =
      some ((15/2 : ℚ) / 10 * 10) ∧
    0 ≤ (15/2 : ℚ) / 10 * 10 ∧ (15/2 : ℚ) / 10 * 10 ≤ 10 ∧
    rating_save_normalized (some (15/2)) (some 10) none =
      some ((15/2 : ℚ) / 10 * 10) :=
  C1_normalized_value_formula_and_bounds { value := 15/2, max_value := 10 }
    (by norm_num) (by norm_num) (by norm_num)

/-! ### Concrete fixtures used by counterexamples and witnesses -/

/-- A primary-provider payload for Heat (1995), carrying its native rating
`vote_average = 8.2`. -/
def heatPayload : TmdbPayload :=
  { idField := some 603, title := "Heat", original_title := "Heat",
    release_date := "1995-12-15", imdb_id := "tt0113277",
    vote_average := some (41/5), vote_count := some 1000 }

/-- An OMDb rating dictionary whose normalized values are 8.75 and 8.5:
their mean is exactly 8.625, a representable tie at the second decimal. -/
def omdbTie : List (String × RatingEntry) :=
  [("rotten_tomatoes", { value := 875/10, max_value := 100 }),
   ("imdb", { value := 17/2, max_value := 10, votes := some 100 })]

/-- The spec's end-to-end scenario B as an OMDb rating dictionary:
7.5/10, 89%, 94/100. -/
def omdbScenarioB : List (String × RatingEntry) :=
  [("imdb", { value := 15/2, max_value := 10, votes := some 1000 }),
   ("rotten_tomatoes", { value := 89, max_value := 100 }),
   ("metacritic", { value := 94, max_value := 100 })]

/-- C2, counterexample.  With normalized ratings 8.75 and 8.5 the mean is
exactly 8.625; the aggregator (CPython `round`, ties to even) publishes
8.62, while the claimed round-half-up rule demands 8.63. -/
theorem C2_counterexample :
    (get_film_data (some heatPayload) (.ok omdbTie) (.ok none) (.ok []) (.ok [])
        (.ok [])).map FilmData.average_rating = some (some (431/50)) ∧
    normalizedList (get_all_ratings "tt0113277" "Heat" (some 1995)
        (.ok omdbTie) (.ok none) (.ok []) (.ok []) (.ok [])) = [35/4, 17/2] ∧
    ((35/4 : ℚ) + (17/2 + 0)) / 2 = 69/8 ∧
    specRoundHalfUp2 (69/8) = 863/100 ∧
    (431/50 : ℚ) ≠ 863/100 := by
  refine ⟨?_, ?_, by norm_num, by norm_num [specRoundHalfUp2], by norm_num⟩
  · have hy : parseYear "1995-12-15" = .ok (some 1995) := rfl
    have hr : get_all_ratings "tt0113277" "Heat" (some 1995)
        (.ok omdbTie) (.ok none) (.ok []) (.ok []) (.ok []) = omdbTie := rfl
    simp only [get_film_data, heatPayload, hy, hr]
    norm_num [omdbTie, normalizedList, pyRound2, roundHalfEven]
    exact ⟨_, ⟨by decide, rfl⟩, by simp⟩
  · norm_num [get_all_ratings, omdbTie, dictUpdate, dictInsert, dictMem, dictGet,
      normalizedList]

/-- C2, amended: for every aggregation with a non-empty normalized rating
set, the composite equals the arithmetic mean rounded to 2 decimal places
with ties to the even hundredth (CPython banker's rounding), not
round-half-up: the rounded value is within 1/200 of the mean, and an
exact tie at the second decimal goes to the even neighbour. -/
theorem C2_composite_mean_rounded_half_even (d : TmdbPayload) (y : Option ℤ)
    (o : Outcome (List (String × RatingEntry)))
    (k1 : Outcome (Option KpPayload))
    (k2 : Outcome (List (String × RatingEntry)))
    (k3 : Outcome (List KpPayload))
    (k4 : Outcome (List (String × RatingEntry)))
    (m : ℚ) (f : FilmData)
    (ht : d.title ≠ "")
    (hy : parseYear d.release_date = .ok y)
    (hne : normalizedList (get_all_ratings d.imdb_id d.title y o k1 k2 k3 k4) ≠ [])
    (hm : m = (normalizedList (get_all_ratings d.imdb_id d.title y o k1 k2 k3 k4)).sum /
      (normalizedList (get_all_ratings d.imdb_id d.title y o k1 k2 k3 k4)).length)
    (hf : get_film_data (some d) o k1 k2 k3 k4 = some f) :
    f.average_rating = some (pyRound2 m) ∧
    |pyRound2 m - m| ≤ 1/200 ∧
    (m * 100 - ⌊m * 100⌋ = 1/2 →
      (⌊m * 100⌋ % 2 = 0 → pyRound2 m = (⌊m * 100⌋ : ℚ) / 100) ∧
      (⌊m * 100⌋ % 2 ≠ 0 → pyRound2 m = ((⌊m * 100⌋ : ℚ) + 1) / 100)) := by
  refine ⟨?_, ?_, ?_⟩
  · simp only [get_film_data, hy] at hf
    rw [if_neg ht] at hf
    have hf2 := Option.some.inj hf
    rw [← hf2]
    show (if _ ≠ ([] : List ℚ) then _ else none) = _
    rw [if_pos hne, hm]
  · have hd := roundHalfEven_dist (m * 100)
    have hshape : pyRound2 m - m =
        (((roundHalfEven (m * 100) : ℤ) : ℚ) - m * 100) / 100 := by
      unfold pyRound2; ring
    rw [hshape, abs_div, abs_of_pos (by norm_num : (0:ℚ) < 100),
      div_le_div_iff₀ (by norm_num) (by norm_num)]
    linarith
  · intro hh
    have hre := roundHalfEven_of_half (m * 100) hh
    constructor
    · intro hp
      unfold pyRound2
      rw [hre, if_pos hp]
    · intro hp
      unfold pyRound2
      rw [hre, if_neg hp]
      push_cast
      ring

/-- Witness for the amended C2 at the spec's scenario B: normalized
ratings 7.5, 8.9, 9.4, mean 8.6, composite 8.60. -/
theorem C2_composite_mean_rounded_half_even_witness :
    ∃ f, get_film_data (some heatPayload) (.ok omdbScenarioB) (.ok none) (.ok [])
        (.ok []) (.ok []) = some f ∧
      (f.average_rating = some (pyRound2 (43/5)) ∧
       |pyRound2 (43/5) - 43/5| ≤ 1/200 ∧
       ((43/5 : ℚ) * 100 - ⌊(43/5 : ℚ) * 100⌋ = 1/2 →
        (⌊(43/5 : ℚ) * 100⌋ % 2 = 0 →
          pyRound2 (43/5) = (⌊(43/5 : ℚ) * 100⌋ : ℚ) / 100) ∧
        (⌊(43/5 : ℚ) * 100⌋ % 2 ≠ 0 →
          pyRound2 (43/5) = ((⌊(43/5 : ℚ) * 100⌋ : ℚ) + 1) / 100))) := by
  have hf : get_film_data (some heatPayload) (.ok omdbScenarioB) (.ok none) (.ok [])
      (.ok []) (.ok []) = some
        { tmdb_id := some 603, title := "Heat", original_title := "Heat",
          year := some 1995, imdb_id := "tt0113277",
          tmdb_rating := some (41/5), tmdb_votes := some 1000,
          ratings := normalizeRatingsDict omdbScenarioB,
          average_rating := some (pyRound2 ((15/2 + (89/10 + (47/5 + 0))) / 3)),
          ratings_count := 3 } := by
    have hy : parseYear "1995-12-15" = .ok (some 1995) := rfl
    have hr : get_all_ratings "tt0113277" "Heat" (some 1995)
        (.ok omdbScenarioB) (.ok none) (.ok []) (.ok []) (.ok []) = omdbScenarioB := rfl
    simp only [get_film_data, heatPayload, hy, hr]
    norm_num [omdbScenarioB, normalizedList, normalizeRatingsDict, normalizeEntry]
    exact ⟨by decide, fun h => by simp at h, by simp⟩
  refine ⟨_, hf, C2_composite_mean_rounded_half_even heatPayload (some 1995)
    (.ok omdbScenarioB) (.ok none) (.ok []) (.ok []) (.ok []) (43/5) _
    (by decide) rfl ?_ ?_ hf⟩
  · norm_num [heatPayload, get_all_ratings, omdbScenarioB, dictUpdate, dictInsert,
      dictMem, dictGet, normalizedList]
    simp
  · norm_num [heatPayload, get_all_ratings, omdbScenarioB, dictUpdate, dictInsert,
      dictMem, dictGet, normalizedList]

/-- C3, counterexample: an aggregation whose primary payload carries the
native rating 8.2 (`vote_average`) while both secondary providers return
nothing.  The unified record keeps the native rating in the separate
`tmdb_rating` field, but the collected rating set is empty —
`ratings_count = 0` and `average_rating = none` — so the native rating is
not part of the collected set, contradicting the claim that it is always
included and counted. -/
theorem C3_counterexample :
    get_film_data (some heatPayload) (.ok []) (.ok none) (.ok []) (.ok []) (.ok []) =
      some { tmdb_id := some 603, title := "Heat", original_title := "Heat",
             year := some 1995, imdb_id := "tt0113277",
             tmdb_rating := some (41/5), tmdb_votes := some 1000,
             ratings := [], average_rating := none, ratings_count := 0 } := by
  have hy : parseYear "1995-12-15" = .ok (some 1995) := rfl
  have hr : get_all_ratings "tt0113277" "Heat" (some 1995) (.ok []) (.ok none)
      (.ok []) (.ok []) (.ok []) = [] := rfl
  simp only [get_film_data, heatPayload, hy, hr]
  norm_num [normalizedList, normalizeRatingsDict]
  intro h
  exact absurd h (by decide)

/-- C3, amended: the primary provider's native rating is carried in the
unified record's separate `tmdb_rating`/`tmdb_votes` fields and is never
added to the collected rating set: that set is exactly the normalization
of the secondary-provider merge, and when the merge is empty the record
has `ratings_count = 0` and a null composite even though the native
rating is present. -/
theorem C3_primary_native_rating_not_collected (d : TmdbPayload) (y : Option ℤ)
    (o : Outcome (List (String × RatingEntry)))
    (k1 : Outcome (Option KpPayload))
    (k2 : Outcome (List (String × RatingEntry)))
    (k3 : Outcome (List KpPayload))
    (k4 : Outcome (List (String × RatingEntry)))
    (f : FilmData)
    (ht : d.title ≠ "") (hy : parseYear d.release_date = .ok y)
    (hf : get_film_data (some d) o k1 k2 k3 k4 = some f) :
    f.tmdb_rating = d.vote_average ∧ f.tmdb_votes = d.vote_count ∧
    f.ratings = normalizeRatingsDict (get_all_ratings d.imdb_id d.title y o k1 k2 k3 k4) ∧
    (get_all_ratings d.imdb_id d.title y o k1 k2 k3 k4 = [] →
      f.ratings = [] ∧ f.ratings_count = 0 ∧ f.average_rating = none) := by
  simp only [get_film_data, hy] at hf
  rw [if_neg ht] at hf
  have hf2 := Option.some.inj hf
  rw [← hf2]
  refine ⟨rfl, rfl, rfl, ?_⟩
  intro hemp
  refine ⟨?_, ?_, ?_⟩ <;> simp [hemp, normalizedList, normalizeRatingsDict]

/-- Witness for the amended C3 at the counterexample's input. -/
theorem C3_primary_native_rating_not_collected_witness :
    ∃ f, get_film_data (some heatPayload) (.ok []) (.ok none) (.ok []) (.ok [])
        (.ok []) = some f ∧
      (f.tmdb_rating = some (41/5) ∧ f.tmdb_votes = some 1000 ∧
       f.ratings = normalizeRatingsDict (get_all_ratings "tt0113277" "Heat"
         (some 1995) (.ok []) (.ok none) (.ok []) (.ok []) (.ok [])) ∧
       (get_all_ratings "tt0113277" "Heat" (some 1995) (.ok []) (.ok none)
           (.ok []) (.ok []) (.ok []) = [] →
         f.ratings = [] ∧ f.ratings_count = 0 ∧ f.average_rating = none)) := by
  have hy : parseYear "1995-12-15" = .ok (some 1995) := rfl
  have hr : get_all_ratings "tt0113277" "Heat" (some 1995) (.ok []) (.ok none)
      (.ok []) (.ok []) (.ok []) = [] := rfl
  have hf : get_film_data (some heatPayload) (.ok []) (.ok none) (.ok []) (.ok [])
      (.ok []) = some { tmdb_id := some 603, title := "Heat",
                        original_title := "Heat", year := some 1995,
                        imdb_id := "tt0113277", tmdb_rating := some (41/5),
                        tmdb_votes := some 1000, ratings := [],
                        average_rating := none, ratings_count := 0 } := by
    simp only [get_film_data, heatPayload, hy, hr]
    norm_num [normalizedList, normalizeRatingsDict]
    intro h
    exact absurd h (by decide)
  exact ⟨_, hf, C3_primary_native_rating_not_collected heatPayload (some 1995)
    (.ok []) (.ok none) (.ok []) (.ok []) (.ok []) _ (by decide) rfl hf⟩

/-- The step function of `merge_omdb_into` as an unfolding equation. -/
theorem merge_omdb_into_cons (ratings : List (String × RatingEntry))
    (p : String × RatingEntry) (rest : List (String × RatingEntry)) :
    merge_omdb_into ratings (p :: rest) =
      merge_omdb_into (if dictMem ratings p.1 then ratings
        else dictInsert ratings p.1 p.2) rest := by
  unfold merge_omdb_into
  rw [List.foldl_cons]

/-- Already-present sources survive the not-yet-present merge untouched. -/
theorem merge_omdb_into_get_of_mem (omdb : List (String × RatingEntry)) :
    ∀ (ratings : List (String × RatingEntry)) (t : String),
      (dictGet ratings t).isSome →
      dictGet (merge_omdb_into ratings omdb) t = dictGet ratings t := by
  induction omdb with
  | nil => intro r t h; rfl
  | cons p rest ih =>
      intro r t h
      rw [merge_omdb_into_cons]
      by_cases hmem : dictMem r p.1
      · rw [if_pos hmem]
        exact ih r t h
      · rw [if_neg hmem]
        have hne : t ≠ p.1 := by
          intro heq
          rw [dictMem, ← heq] at hmem
          exact hmem h
        have hstep : dictGet (dictInsert r p.1 p.2) t = dictGet r t := by
          rw [dictGet_dictInsert, if_neg hne]
        rw [ih (dictInsert r p.1 p.2) t (by rw [hstep]; exact h), hstep]

/-- C4: whenever the regional catalog (Kinopoisk) reports a rating for a
source tag, the final rating set carries the regional catalog's value for
that tag, not the ratings aggregator's (OMDb's).  In
`MovieService.get_movie_data` the Kinopoisk-sourced entries are written
first and OMDb entries only fill absent sources; in
`FilmAggregator._get_all_ratings` the Kinopoisk dictionary is written
over the OMDb one.  Both paths end with the regional value. -/
theorem C4_regional_catalog_wins_shared_tag :
    (∀ (ratings omdb_ratings : List (String × RatingEntry)) (t : String),
       (dictGet ratings t).isSome →
       dictGet (merge_omdb_into ratings omdb_ratings) t = dictGet ratings t) ∧
    (∀ (imdb_id title : String) (y : Option ℤ)
       (o kpd : List (String × RatingEntry)) (kpm : KpPayload)
       (k3 : Outcome (List KpPayload))
       (k4 : Outcome (List (String × RatingEntry))) (t : String),
       imdb_id ≠ "" → (kpd.map Prod.fst).Nodup → (dictGet kpd t).isSome →
       dictGet (get_all_ratings imdb_id title y (.ok o) (.ok (some kpm))
         (.ok kpd) k3 k4) t = dictGet kpd t) := by
  constructor
  · intro ratings omdb_ratings t h
    exact merge_omdb_into_get_of_mem omdb_ratings ratings t h
  · intro imdb_id title y o kpd kpm k3 k4 t himdb hnd hmem
    have hcond : (imdb_id ≠ "") = True := eq_true himdb
    simp only [get_all_ratings, hcond, if_true]
    have hr2 : dictGet (dictUpdate (dictUpdate [] o) kpd) t = dictGet kpd t :=
      dictGet_dictUpdate_of_mem _ _ _ hnd hmem
    by_cases hguard : ¬ dictMem (dictUpdate (dictUpdate [] o) kpd) "kinopoisk" = true
        ∧ title ≠ ""
    · rw [if_pos hguard]
      have htkp : t ≠ "kinopoisk" := by
        intro heq
        apply hguard.1
        rw [dictMem, ← heq, hr2]
        exact hmem
      match k3 with
      | .exn => exact hr2
      | .ok [] => exact hr2
      | .ok (item :: rest) =>
        match k4 with
        | .exn => exact hr2
        | .ok dd =>
          match hdd : dictGet dd "kinopoisk" with
          | none => simp only [hdd]; exact hr2
          | some v =>
              simp only [hdd, dictGet_dictInsert, if_neg htkp]
              exact hr2
    · rw [if_neg hguard]
      exact hr2

/-- Witness for C4: Kinopoisk reports imdb = 8.7 while OMDb reports
imdb = 8.3; both merge orders keep 8.7. -/
theorem C4_regional_catalog_wins_shared_tag_witness :
    dictGet (merge_omdb_into
        [("kinopoisk", { value := 86/10, max_value := 10 }),
         ("imdb", { value := 87/10, max_value := 10 })]
        [("imdb", { value := 83/10, max_value := 10 }),
         ("metacritic", { value := 90, max_value := 100 })]) "imdb" =
      dictGet [("kinopoisk", ({ value := 86/10, max_value := 10 } : RatingEntry)),
         ("imdb", { value := 87/10, max_value := 10 })] "imdb" ∧
    dictGet (get_all_ratings "tt0113277" "Heat" (some 1995)
        (.ok [("imdb", { value := 83/10, max_value := 10 }),
              ("metacritic", { value := 90, max_value := 100 })])
        (.ok (some {})) (.ok [("kinopoisk", { value := 86/10, max_value := 10 }),
              ("imdb", { value := 87/10, max_value := 10 })])
        (.ok []) (.ok [])) "imdb" =
      dictGet [("kinopoisk", ({ value := 86/10, max_value := 10 } : RatingEntry)),
         ("imdb", { value := 87/10, max_value := 10 })] "imdb" :=
  ⟨C4_regional_catalog_wins_shared_tag.1 _ _ "imdb" (by decide),
   C4_regional_catalog_wins_shared_tag.2 "tt0113277" "Heat" (some 1995) _ _ {}
     (.ok []) (.ok []) "imdb" (by decide) (by decide) (by decide)⟩

/-- A Kinopoisk search item that matches the requested film in neither
identifier, title, original title, nor year. -/
def kpWrongFilm : KpPayload :=
  { kinopoiskId := some 42, imdbId := some "tt9999999",
    nameRu := some "Совсем другой фильм",
    nameOriginal := some "A Completely Different Film",
    year := some 1980 }

/-- A Kinopoisk search item carrying the requested IMDb id. -/
def kpHeatFilm : KpPayload :=
  { kinopoiskId := some 535, imdbId := some "tt0113277",
    nameRu := some "Схватка", nameOriginal := some "Heat",
    year := some 1995 }

/-- C5, counterexample: resolving IMDb id tt0113277 ("Heat", 1995) with a
title fallback, the resolver accepts the first fallback search result
even though its release year (1980) is 15 years off and neither its title
nor its original title matches — the claimed year-tolerance and
title-match conditions are not checked. -/
theorem C5_counterexample :
    kp_get_movie_by_imdb_id "tt0113277" (some "Heat") (some 1995)
        (.ok (some [])) (.ok (some [kpWrongFilm])) = some kpWrongFilm ∧
    kpWrongFilm.year = some 1980 ∧ (2 : ℤ) < |1980 - 1995| ∧
    kpWrongFilm.imdbId ≠ some "tt0113277" ∧
    kpWrongFilm.nameRu ≠ some "Heat" ∧ kpWrongFilm.nameEn ≠ some "Heat" ∧
    kpWrongFilm.nameOriginal ≠ some "Heat" := by
  refine ⟨rfl, rfl, by decide, by decide, by decide, by decide, by decide⟩

/-- C5, amended: the regional-catalog resolver first accepts the search
item whose embedded IMDb id equals the requested one; failing that, with
a truthy fallback title it accepts the first fallback search result
unconditionally — no year tolerance and no title comparison.  The ±2-year
tolerance lives only in the TMDB resolution path
(`MovieService._find_tmdb_id_for_film`), which checks the first result's
year but compares no titles: the first candidate is accepted exactly when
its release year parses and either year is falsy or they differ by at
most 2; a first result outside the tolerance is rejected without
examining later candidates. -/
theorem C5_resolution_checks_year_only_in_tmdb_path :
    (∀ (imdb_id : String) (ft : Option String) (y : Option ℤ)
       (s2 : Outcome (Option (List KpPayload))) (items : List KpPayload)
       (f : KpPayload),
       items.find? (fun g => g.imdbId == some imdb_id) = some f →
       kp_get_movie_by_imdb_id imdb_id ft y (.ok (some items)) s2 = some f) ∧
    (∀ (imdb_id : String) (ft : Option String) (y : Option ℤ)
       (items : List KpPayload) (f : KpPayload) (rest : List KpPayload),
       (∀ g ∈ items, g.imdbId ≠ some imdb_id) → strOptTruthy ft = true →
       kp_get_movie_by_imdb_id imdb_id ft y (.ok (some items))
         (.ok (some (f :: rest))) = some f) ∧
    (∀ (yv ry : ℤ) (first : TmdbSearchResult) (rest : List TmdbSearchResult),
       yv ≠ 0 → first.release_date ≠ "" →
       pyInt? (first.release_date.data.take 4) = some ry → ry ≠ 0 →
       2 < |ry - yv| →
       tmdb_attempt (some yv) (.ok (first :: rest)) = none) ∧
    (∀ (yv ry : ℤ) (first : TmdbSearchResult) (rest : List TmdbSearchResult),
       first.release_date ≠ "" →
       pyInt? (first.release_date.data.take 4) = some ry →
       |ry - yv| ≤ 2 →
       tmdb_attempt (some yv) (.ok (first :: rest)) = first.idField) := by
  refine ⟨?_, ?_, ?_, ?_⟩
  · intro imdb_id ft y s2 items f hfind
    simp only [kp_get_movie_by_imdb_id, Option.getD_some, hfind]
  · intro imdb_id ft y items f rest hno hft
    have hfind : items.find? (fun g => g.imdbId == some imdb_id) = none := by
      rw [List.find?_eq_none]
      intro g hg
      simpa using hno g hg
    simp only [kp_get_movie_by_imdb_id, Option.getD_some, hfind, if_pos hft]
  · intro yv ry first rest hyv hrd hparse hry habs
    simp only [tmdb_attempt, if_pos hrd, hparse]
    rw [if_neg]
    rintro (hc | hc | hc)
    · exact hc (by simp [intOptTruthy, hyv])
    · exact hry hc
    · simp only [Option.getD_some] at hc
      omega
  · intro yv ry first rest hrd hparse hnear
    simp only [tmdb_attempt, if_pos hrd, hparse]
    rw [if_pos]
    exact Or.inr (Or.inr (by simpa using hnear))

/-- Witness for the amended C5: a cross-reference hit is returned; an
unconditional fallback acceptance happens; a first TMDB result 15 years
off is rejected while one 1 year off is accepted without any title
comparison. -/
theorem C5_resolution_checks_year_only_in_tmdb_path_witness :
    kp_get_movie_by_imdb_id "tt0113277" (some "Heat") (some 1995)
        (.ok (some [kpWrongFilm, kpHeatFilm])) (.ok none) = some kpHeatFilm ∧
    kp_get_movie_by_imdb_id "tt0113277" (some "Heat") (some 1995)
        (.ok (some [kpWrongFilm])) (.ok (some [kpWrongFilm])) = some kpWrongFilm ∧
    tmdb_attempt (some 1995)
        (.ok [{ idField := some 77, release_date := "1980-05-01",
                title := "Heat", original_title := "Heat" }]) = none ∧
    tmdb_attempt (some 1995)
        (.ok [{ idField := some 78, release_date := "1994-05-01",
                title := "Nothing Like It", original_title := "Nic Podobnego" }]) =
      some 78 :=
  ⟨C5_resolution_checks_year_only_in_tmdb_path.1 "tt0113277" (some "Heat")
      (some 1995) (.ok none) [kpWrongFilm, kpHeatFilm] kpHeatFilm rfl,
   C5_resolution_checks_year_only_in_tmdb_path.2.1 "tt0113277" (some "Heat")
      (some 1995) [kpWrongFilm] kpWrongFilm [] (by decide) rfl,
   C5_resolution_checks_year_only_in_tmdb_path.2.2.1 1995 1980
      { idField := some 77, release_date := "1980-05-01",
        title := "Heat", original_title := "Heat" } []
      (by decide) (by decide) rfl (by decide) (by decide),
   C5_resolution_checks_year_only_in_tmdb_path.2.2.2 1995 1994
      { idField := some 78, release_date := "1994-05-01",
        title := "Nothing Like It", original_title := "Nic Podobnego" } []
      (by decide) rfl (by decide)⟩

/-! ### Claim C6: the OMDb rating parser -/

/-- The IMDb block writes only the key `"imdb"`. -/
theorem omdbImdbStep_get_of_ne (d : OmdbPayload) (k : String)
    (hk : k ≠ "imdb") (acc res : List (String × RatingEntry))
    (h : omdbImdbStep d acc = .ok res) :
    dictGet res k = dictGet acc k := by
  unfold omdbImdbStep at h
  cases hd : d.imdbRating with
  | none =>
      simp only [hd] at h
      injection h with h2
      rw [← h2]
  | some r =>
      simp only [hd] at h
      by_cases hna : r ≠ "N/A"
      · rw [if_pos hna] at h
        cases hf : pyFloat r with
        | none => simp only [hf] at h; exact Except.noConfusion h
        | some v =>
            simp only [hf] at h
            injection h with h2
            rw [← h2, dictGet_dictInsert, if_neg hk]
      · rw [if_neg hna] at h
        injection h with h2
        rw [← h2]

/-- The Metascore block writes only the key `"metacritic"`. -/
theorem omdbMetascoreStep_get_of_ne (d : OmdbPayload) (k : String)
    (hk : k ≠ "metacritic") (acc res : List (String × RatingEntry))
    (h : omdbMetascoreStep d acc = .ok res) :
    dictGet res k = dictGet acc k := by
  unfold omdbMetascoreStep at h
  cases hd : d.metascore with
  | none =>
      simp only [hd] at h
      injection h with h2
      rw [← h2]
  | some r =>
      simp only [hd] at h
      by_cases hna : r ≠ "N/A"
      · rw [if_pos hna] at h
        cases hf : pyFloat r with
        | none => simp only [hf] at h; exact Except.noConfusion h
        | some v =>
            simp only [hf] at h
            injection h with h2
            rw [← h2, dictGet_dictInsert, if_neg hk]
      · rw [if_neg hna] at h
        injection h with h2
        rw [← h2]

/-- A Metascore of `"N/A"` leaves the dictionary untouched. -/
theorem omdbMetascoreStep_na (d : OmdbPayload)
    (acc : List (String × RatingEntry)) (hms : d.metascore = some "N/A") :
    omdbMetascoreStep d acc = .ok acc := by
  unfold omdbMetascoreStep
  simp only [hms]
  rw [if_neg (by simp)]

/-- One `Ratings`-array entry never writes a key other than
`"rotten_tomatoes"` or `"metacritic"`. -/
theorem processRatingEntry_get_of_ne (acc res : List (String × RatingEntry))
    (e : String × String) (k : String)
    (hk1 : k ≠ "rotten_tomatoes") (hk2 : k ≠ "metacritic")
    (h : processRatingEntry acc e = .ok res) :
    dictGet res k = dictGet acc k := by
  unfold processRatingEntry at h
  by_cases hrt : strContains e.1 "Rotten Tomatoes" = true
  · rw [if_pos hrt] at h
    by_cases hpc : strContains e.2 "%" = true
    · rw [if_pos hpc] at h
      cases hf : pyFloat (pyReplaceChar e.2 '%') with
      | none => simp only [hf] at h; exact Except.noConfusion h
      | some v =>
          simp only [hf] at h
          injection h with h2
          rw [← h2, dictGet_dictInsert, if_neg hk1]
    · rw [if_neg hpc] at h
      injection h with h2
      rw [← h2]
  · rw [if_neg hrt] at h
    by_cases hmc : strContains e.1 "Metacritic" = true
    · rw [if_pos hmc] at h
      by_cases hsl : strContains e.2 "/" = true
      · rw [if_pos hsl] at h
        match hsp : splitOnChar e.2.data '/' with
        | [] => simp only [hsp] at h; exact Except.noConfusion h
        | [a] => simp only [hsp] at h; exact Except.noConfusion h
        | [a, b] =>
            simp only [hsp] at h
            cases hfa : pyFloat ⟨a⟩ with
            | none => simp only [hfa] at h; exact Except.noConfusion h
            | some qa =>
                cases hfb : pyFloat ⟨b⟩ with
                | none => simp only [hfa, hfb] at h; exact Except.noConfusion h
                | some qb =>
                    simp only [hfa, hfb] at h
                    injection h with h2
                    rw [← h2, dictGet_dictInsert, if_neg hk2]
        | a :: b :: c :: t => simp only [hsp] at h; exact Except.noConfusion h
      · rw [if_neg hsl] at h
        injection h with h2
        rw [← h2]
    · rw [if_neg hmc] at h
      injection h with h2
      rw [← h2]

/-- A `Ratings`-array entry whose source mentions Rotten Tomatoes, or
whose value carries no slash, leaves `"metacritic"` untouched. -/
theorem processRatingEntry_metacritic_untouched
    (acc res : List (String × RatingEntry)) (e : String × String)
    (he : strContains e.1 "Rotten Tomatoes" = true ∨ strContains e.2 "/" = false)
    (h : processRatingEntry acc e = .ok res) :
    dictGet res "metacritic" = dictGet acc "metacritic" := by
  unfold processRatingEntry at h
  by_cases hrt : strContains e.1 "Rotten Tomatoes" = true
  · rw [if_pos hrt] at h
    by_cases hpc : strContains e.2 "%" = true
    · rw [if_pos hpc] at h
      cases hf : pyFloat (pyReplaceChar e.2 '%') with
      | none => simp only [hf] at h; exact Except.noConfusion h
      | some v =>
          simp only [hf] at h
          injection h with h2
          rw [← h2, dictGet_dictInsert, if_neg (by decide)]
    · rw [if_neg hpc] at h
      injection h with h2
      rw [← h2]
  · rw [if_neg hrt] at h
    have hsl : strContains e.2 "/" = false := by
      rcases he with he | he
      · exact absurd he hrt
      · exact he
    by_cases hmc : strContains e.1 "Metacritic" = true
    · rw [if_pos hmc, hsl] at h
      rw [if_neg (by simp)] at h
      injection h with h2
      rw [← h2]
    · rw [if_neg hmc] at h
      injection h with h2
      rw [← h2]

/-- Lift of `processRatingEntry_get_of_ne` over the whole array loop. -/
theorem processRatingsArr_get_of_ne (k : String)
    (hk1 : k ≠ "rotten_tomatoes") (hk2 : k ≠ "metacritic") :
    ∀ (arr : List (String × String)) (acc res : List (String × RatingEntry)),
      processRatingsArr acc arr = .ok res → dictGet res k = dictGet acc k := by
  intro arr
  induction arr with
  | nil =>
      intro acc res h
      injection h with h2
      rw [← h2]
  | cons e rest ih =>
      intro acc res h
      unfold processRatingsArr at h
      cases hstep : processRatingEntry acc e with
      | error u => rw [hstep] at h; exact Except.noConfusion h
      | ok acc2 =>
          rw [hstep] at h
          rw [ih acc2 res h, processRatingEntry_get_of_ne acc acc2 e k hk1 hk2 hstep]

/-- Lift of `processRatingEntry_metacritic_untouched` over the loop. -/
theorem processRatingsArr_metacritic_untouched :
    ∀ (arr : List (String × String)),
      (∀ e ∈ arr, strContains e.1 "Rotten Tomatoes" = true ∨
        strContains e.2 "/" = false) →
      ∀ (acc res : List (String × RatingEntry)),
        processRatingsArr acc arr = .ok res →
        dictGet res "metacritic" = dictGet acc "metacritic" := by
  intro arr
  induction arr with
  | nil =>
      intro he acc res h
      injection h with h2
      rw [← h2]
  | cons e rest ih =>
      intro he acc res h
      unfold processRatingsArr at h
      cases hstep : processRatingEntry acc e with
      | error u => rw [hstep] at h; exact Except.noConfusion h
      | ok acc2 =>
          rw [hstep] at h
          rw [ih (fun g hg => he g (List.mem_cons_of_mem e hg)) acc2 res h,
            processRatingEntry_metacritic_untouched acc acc2 e
              (he e (List.mem_cons_self e rest)) hstep]

/-- An OMDb payload that reports Metacritic twice: the flat `Metascore`
field says `"N/A"` while the `Ratings` array carries `"84/100"`. -/
def omdbNaWithArr : OmdbPayload :=
  { metascore := some "N/A", ratingsArr := some [("Metacritic", "84/100")] }

/-- C6, counterexample: in `omdbNaWithArr` the Metacritic source reports
`"N/A"` (in `Metascore`), yet the returned map carries a metacritic entry
(84/100, parsed from the `Ratings` array) — so "a source reporting N/A is
absent from the returned map" fails as a universal statement about
payloads, even though the `"N/A"` report itself contributed nothing. -/
theorem C6_counterexample :
    get_movie_ratings omdbNaWithArr =
      .ok [("metacritic", { value := 84, max_value := 100 })] ∧
    omdbNaWithArr.metascore = some "N/A" ∧
    dictGet [("metacritic", ({ value := 84, max_value := 100 } : RatingEntry))]
      "metacritic" = some { value := 84, max_value := 100 } :=
  ⟨rfl, rfl, rfl⟩

/-- C6, amended: the parser maps percentage strings to scale-max 100 and
splits `"x/y"` strings into value and maximum; an `"N/A"` in the
`imdbRating` or `Metascore` field is dropped (never coerced to 0), and
the source stays absent from the returned map unless another field of the
same payload reports it with a parseable value (as in the
counterexample); an `"N/A"` inside a Metacritic `Ratings`-array entry
would instead raise (its slash splits into the unparsable "N" and "A"),
voiding the whole OMDb rating call, which the callers catch. -/
theorem C6_omdb_parser_encodings_and_na (a6 : List (String × RatingEntry)) :
    (∀ (acc : List (String × RatingEntry)) (src v : String) (q : ℚ),
       strContains src "Rotten Tomatoes" = true → strContains v "%" = true →
       pyFloat (pyReplaceChar v '%') = some q →
       processRatingEntry acc (src, v) =
         .ok (dictInsert acc "rotten_tomatoes" { value := q, max_value := 100 })) ∧
    (∀ (acc : List (String × RatingEntry)) (src v : String)
       (a b : List Char) (qa qb : ℚ),
       strContains src "Rotten Tomatoes" = false →
       strContains src "Metacritic" = true → strContains v "/" = true →
       splitOnChar v.data '/' = [a, b] →
       pyFloat ⟨a⟩ = some qa → pyFloat ⟨b⟩ = some qb →
       processRatingEntry acc (src, v) =
         .ok (dictInsert acc "metacritic" { value := qa, max_value := qb })) ∧
    pyFloat "N/A" = none ∧
    (∀ (d : OmdbPayload) (res : List (String × RatingEntry)),
       d.metascore = some "N/A" →
       (∀ e ∈ d.ratingsArr.getD [], strContains e.1 "Rotten Tomatoes" = true ∨
         strContains e.2 "/" = false) →
       get_movie_ratings d = .ok res → dictGet res "metacritic" = none) ∧
    (∀ (d : OmdbPayload) (res : List (String × RatingEntry)),
       d.imdbRating = some "N/A" →
       get_movie_ratings d = .ok res → dictGet res "imdb" = none) ∧
    processRatingsArr a6 [("Metacritic", "N/A")] = .error () := by
  refine ⟨?_, ?_, rfl, ?_, ?_, rfl⟩
  · intro acc src v q hrt hpc hq
    unfold processRatingEntry
    rw [if_pos hrt, if_pos hpc]
    simp only [hq]
  · intro acc src v a b qa qb hrt hmc hsl hsp hqa hqb
    unfold processRatingEntry
    rw [if_neg (by simp [hrt]), if_pos hmc, if_pos hsl]
    simp only [hsp, hqa, hqb]
  · intro d res hms harr h
    unfold get_movie_ratings at h
    by_cases hresp : d.response = some "False"
    · rw [if_pos hresp] at h
      injection h with h2
      rw [← h2]
      rfl
    · rw [if_neg hresp] at h
      cases h1 : omdbImdbStep d [] with
      | error u => simp only [h1] at h; exact Except.noConfusion h
      | ok r1 =>
          simp only [h1, omdbMetascoreStep_na d r1 hms] at h
          have hr1 : dictGet r1 "metacritic" = none :=
            omdbImdbStep_get_of_ne d "metacritic" (by decide) [] r1 h1
          cases harr2 : d.ratingsArr with
          | none =>
              simp only [harr2] at h
              injection h with h2
              rw [← h2]
              exact hr1
          | some arr =>
              simp only [harr2] at h
              rw [processRatingsArr_metacritic_untouched arr
                (by rw [harr2] at harr; exact harr) r1 res h]
              exact hr1
  · intro d res hna h
    unfold get_movie_ratings at h
    by_cases hresp : d.response = some "False"
    · rw [if_pos hresp] at h
      injection h with h2
      rw [← h2]
      rfl
    · rw [if_neg hresp] at h
      have h1 : omdbImdbStep d [] = .ok [] := by
        unfold omdbImdbStep
        simp only [hna]
        rw [if_neg (by simp)]
      simp only [h1] at h
      cases h2s : omdbMetascoreStep d [] with
      | error u => simp only [h2s] at h; exact Except.noConfusion h
      | ok r2 =>
          simp only [h2s] at h
          have hr2 : dictGet r2 "imdb" = none :=
            omdbMetascoreStep_get_of_ne d "imdb" (by decide) [] r2 h2s
          cases harr2 : d.ratingsArr with
          | none =>
              simp only [harr2] at h
              injection h with h3
              rw [← h3]
              exact hr2
          | some arr =>
              simp only [harr2] at h
              rw [processRatingsArr_get_of_ne "imdb" (by decide) (by decide)
                arr r2 res h]
              exact hr2

/-- Witness for the amended C6: a Rotten Tomatoes `"89%"` becomes 89 of
100; a Metacritic `"94/100"` splits into 94 of 100; `float("N/A")`
raises; a payload with `Metascore: "N/A"` and no parseable array report
for Metacritic yields a map without a metacritic entry; an `imdbRating`
of `"N/A"` yields a map without an imdb entry. -/
theorem C6_omdb_parser_encodings_and_na_witness :
    processRatingEntry [] ("Rotten Tomatoes", "89%") =
      .ok (dictInsert [] "rotten_tomatoes" { value := 89, max_value := 100 }) ∧
    processRatingEntry [] ("Metacritic", "94/100") =
      .ok (dictInsert [] "metacritic" { value := 94, max_value := 100 }) ∧
    get_movie_ratings { imdbRating := some "7", metascore := some "N/A",
                        ratingsArr := some [("Rotten Tomatoes", "89%")] } =
      .ok [("imdb", { value := 7, max_value := 10, votes := some 0 }),
           ("rotten_tomatoes", { value := 89, max_value := 100 })] ∧
    dictGet [("imdb", ({ value := 7, max_value := 10, votes := some 0 } : RatingEntry)),
             ("rotten_tomatoes", { value := 89, max_value := 100 })] "metacritic" = none ∧
    get_movie_ratings { imdbRating := some "N/A" } = .ok [] ∧
    dictGet ([] : List (String × RatingEntry)) "imdb" = none :=
  ⟨(C6_omdb_parser_encodings_and_na []).1 [] "Rotten Tomatoes" "89%" 89
      rfl rfl rfl,
   (C6_omdb_parser_encodings_and_na []).2.1 [] "Metacritic" "94/100"
      "94".data "100".data 94 100 rfl rfl rfl rfl rfl rfl,
   rfl,
   (C6_omdb_parser_encodings_and_na []).2.2.2.1
      { imdbRating := some "7", metascore := some "N/A",
          ratingsArr := some [("Rotten Tomatoes", "89%")] }
      [("imdb", { value := 7, max_value := 10, votes := some 0 }),
        ("rotten_tomatoes", { value := 89, max_value := 100 })]
      rfl (by decide) rfl,
   rfl,
   (C6_omdb_parser_encodings_and_na []).2.2.2.2.1
      { imdbRating := some "N/A" } [] rfl rfl⟩

/-- C7: on a native-ID lookup whose transport payload carries an embedded
ID different from the requested one, both adapters return the empty/null
record, never the mismatched payload.  For TMDB the check is
`result.get('id') != tmdb_id` behind a cache miss; for Kinopoisk it is
the falsy-chained `kinopoiskId or kinopoisk_id or id` compared with the
requested ID (a missing or falsy chain also counts as a mismatch). -/
theorem C7_native_id_mismatch_returns_null :
    (∀ (tmdb_id : ℤ) (p : TmdbPayload), p.idField ≠ some tmdb_id →
       tmdb_get_movie_details tmdb_id none (.ok p) = .ok none) ∧
    (∀ (kid : ℤ) (p : KpPayload),
       (∀ n, kpResolvedId p = some n → n ≠ kid) →
       kp_get_movie_details kid (.ok (some p)) = none) := by
  constructor
  · intro tmdb_id p hne
    simp only [tmdb_get_movie_details]
    rw [if_neg hne]
  · intro kid p hne
    simp only [kp_get_movie_details]
    cases hr : kpResolvedId p with
    | none => simp only [hr]
    | some n =>
        simp only [hr]
        rw [if_neg (hne n hr)]

/-- Witness for C7: a payload embedding ID 604 requested as 603, and a
Kinopoisk payload embedding 42 requested as 41. -/
theorem C7_native_id_mismatch_returns_null_witness :
    tmdb_get_movie_details 603 none
      (.ok { idField := some 604, title := "Wrong Movie" }) = .ok none ∧
    kp_get_movie_details 41 (.ok (some kpWrongFilm)) = none :=
  ⟨C7_native_id_mismatch_returns_null.1 603
      { idField := some 604, title := "Wrong Movie" } (by decide),
   C7_native_id_mismatch_returns_null.2 41 kpWrongFilm
      (by intro n hn; simp [kpWrongFilm, kpResolvedId, intOptTruthy] at hn; omega)⟩

/-- All-failing attempt windows drive the retry loop to a single terminal
failure recording the window's last cause. -/
theorem requestLoopAux_all_fail (attempts : ℕ → AttemptResult) :
    ∀ (r i : ℕ) (last : Option FailCause) (causes : ℕ → FailCause),
      0 < r →
      (∀ j, i ≤ j → j < i + r → classifyAttempt (attempts j) = .inr (causes j)) →
      requestLoopAux attempts last i r = .failure (some (causes (i + r - 1))) (i + r) := by
  intro r
  induction r with
  | zero => intro i last causes h0; exact absurd h0 (by norm_num)
  | succ r ih =>
      intro i last causes h0 hall
      have hi : classifyAttempt (attempts i) = .inr (causes i) :=
        hall i le_rfl (by omega)
      cases r with
      | zero =>
          cases hc : causes i with
          | rateLimited =>
              rw [hc] at hi
              simp only [requestLoopAux, hi]
              rw [show i + (0 + 1) - 1 = i from by omega, hc]
          | clientError st =>
              rw [hc] at hi
              simp only [requestLoopAux, hi]
              rw [show i + (0 + 1) - 1 = i from by omega, hc]
              simp
          | serverError st =>
              rw [hc] at hi
              simp only [requestLoopAux, hi]
              rw [show i + (0 + 1) - 1 = i from by omega, hc]
              simp
          | parseError =>
              rw [hc] at hi
              simp only [requestLoopAux, hi]
              rw [show i + (0 + 1) - 1 = i from by omega, hc]
              simp
          | transport =>
              rw [hc] at hi
              simp only [requestLoopAux, hi]
              rw [show i + (0 + 1) - 1 = i from by omega, hc]
              simp
      | succ r2 =>
          have hwin : ∀ j, i + 1 ≤ j → j < (i + 1) + (r2 + 1) →
              classifyAttempt (attempts j) = .inr (causes j) :=
            fun j hj1 hj2 => hall j (by omega) (by omega)
          have e1 : (i + 1) + (r2 + 1) - 1 = i + (r2 + 1 + 1) - 1 := by omega
          have e2 : (i + 1) + (r2 + 1) = i + (r2 + 1 + 1) := by omega
          cases hc : causes i with
          | rateLimited =>
              rw [hc] at hi
              simp only [requestLoopAux, hi]
              have h3 := ih (i + 1) (some .rateLimited) causes (by omega) hwin
              rw [e1, e2] at h3
              exact h3
          | clientError st =>
              rw [hc] at hi
              simp only [requestLoopAux, hi, Nat.succ_ne_zero, if_false]
              have h3 := ih (i + 1) (some (.clientError st)) causes (by omega) hwin
              rw [e1, e2] at h3
              exact h3
          | serverError st =>
              rw [hc] at hi
              simp only [requestLoopAux, hi, Nat.succ_ne_zero, if_false]
              have h3 := ih (i + 1) (some (.serverError st)) causes (by omega) hwin
              rw [e1, e2] at h3
              exact h3
          | parseError =>
              rw [hc] at hi
              simp only [requestLoopAux, hi, Nat.succ_ne_zero, if_false]
              have h3 := ih (i + 1) (some .parseError) causes (by omega) hwin
              rw [e1, e2] at h3
              exact h3
          | transport =>
              rw [hc] at hi
              simp only [requestLoopAux, hi, Nat.succ_ne_zero, if_false]
              have h3 := ih (i + 1) (some .transport) causes (by omega) hwin
              rw [e1, e2] at h3
              exact h3

/-- C8: when every one of the effective `retries` attempts fails (rate
limited, client/server error, transport failure, or unparsable body), the
gateway makes exactly that many attempts and raises a single terminal
`APIRequestError` recording the last attempt's failure cause; no further
attempt is made. -/
theorem C8_retries_exhausted_single_terminal_error (method : String)
    (use_cache : Bool) (attempts : ℕ → AttemptResult) (retries : ℕ)
    (causes : ℕ → FailCause)
    (hall : ∀ j < (if retries = 0 then 3 else retries),
      classifyAttempt (attempts j) = .inr (causes j)) :
    make_request method use_cache none attempts retries =
      .failure (some (causes ((if retries = 0 then 3 else retries) - 1)))
        (if retries = 0 then 3 else retries) := by
  unfold make_request
  have hcache : (use_cache && pyUpper method == "GET" &&
      (match (none : Option PyVal) with
       | some v => v.truthy
       | none => false)) = false := by
    simp
  rw [hcache]
  simp only [Bool.false_eq_true, if_false]
  have heff : 0 < (if retries = 0 then 3 else retries) := by
    split <;> omega
  have := requestLoopAux_all_fail attempts (if retries = 0 then 3 else retries)
    0 none causes heff (fun j hj1 hj2 => hall j (by omega))
  simpa using this

/-- Witness for C8: three straight HTTP 500 responses exhaust the default
budget of 3 and surface one terminal error carrying the server-error
cause; exactly 3 attempts are made. -/
theorem C8_retries_exhausted_single_terminal_error_witness :
    make_request "GET" false none (fun _ => .http 500 none) 3 =
      .failure (some (.serverError 500)) 3 := by
  have h := C8_retries_exhausted_single_terminal_error "GET" false
    (fun _ => .http 500 none) 3 (fun _ => .serverError 500)
    (fun j hj => by norm_num [classifyAttempt])
  simpa using h

/-- C9: failures while resolving or collecting secondary-provider ratings
never abort the aggregation — an exception from the OMDb call, the
Kinopoisk resolution, either rating fetch, or the title search behaves
exactly like that provider contributing nothing, and a unified record is
still produced; only a missing or unusable primary record (or an empty
primary title) makes the whole aggregation return `None`. -/
theorem C9_secondary_failures_degrade_not_abort :
    (∀ (o : Outcome (List (String × RatingEntry)))
       (k1 : Outcome (Option KpPayload))
       (k2 : Outcome (List (String × RatingEntry)))
       (k3 : Outcome (List KpPayload))
       (k4 : Outcome (List (String × RatingEntry))),
       get_film_data none o k1 k2 k3 k4 = none) ∧
    (∀ (d : TmdbPayload) (y : Option ℤ) (o : Outcome (List (String × RatingEntry)))
       (k1 : Outcome (Option KpPayload))
       (k2 : Outcome (List (String × RatingEntry)))
       (k3 : Outcome (List KpPayload))
       (k4 : Outcome (List (String × RatingEntry))),
       d.title ≠ "" → parseYear d.release_date = .ok y →
       (get_film_data (some d) o k1 k2 k3 k4).isSome = true) ∧
    (∀ d k1 k2 k3 k4, get_film_data (some d) .exn k1 k2 k3 k4 =
       get_film_data (some d) (.ok []) k1 k2 k3 k4) ∧
    (∀ d o k2 k3 k4, get_film_data (some d) o .exn k2 k3 k4 =
       get_film_data (some d) o (.ok none) k2 k3 k4) ∧
    (∀ d o k1 k3 k4, get_film_data (some d) o k1 .exn k3 k4 =
       get_film_data (some d) o k1 (.ok []) k3 k4) ∧
    (∀ d o k1 k2 k4, get_film_data (some d) o k1 k2 .exn k4 =
       get_film_data (some d) o k1 k2 (.ok []) k4) ∧
    (∀ d o k1 k2 k3, get_film_data (some d) o k1 k2 k3 .exn =
       get_film_data (some d) o k1 k2 k3 (.ok [])) := by
  refine ⟨fun o k1 k2 k3 k4 => rfl, ?_, fun d k1 k2 k3 k4 => rfl,
    fun d o k2 k3 k4 => rfl, fun d o k1 k3 k4 => rfl,
    fun d o k1 k2 k4 => rfl, fun d o k1 k2 k3 => rfl⟩
  intro d y o k1 k2 k3 k4 ht hy
  simp only [get_film_data, hy]
  rw [if_neg ht]
  rfl

/-- Witness for C9 at the Heat payload with every secondary call
raising: the aggregation still returns a record. -/
theorem C9_secondary_failures_degrade_not_abort_witness :
    get_film_data none .exn .exn .exn .exn .exn = none ∧
    (get_film_data (some heatPayload) .exn .exn .exn .exn .exn).isSome = true ∧
    get_film_data (some heatPayload) .exn .exn .exn .exn .exn =
      get_film_data (some heatPayload) (.ok []) .exn .exn .exn .exn :=
  ⟨C9_secondary_failures_degrade_not_abort.1 .exn .exn .exn .exn .exn,
   C9_secondary_failures_degrade_not_abort.2.1 heatPayload (some 1995)
     .exn .exn .exn .exn .exn (by decide) rfl,
   C9_secondary_failures_degrade_not_abort.2.2.1 heatPayload .exn .exn .exn .exn⟩

/-- The retry loop itself never reports a cache hit. -/
theorem requestLoopAux_not_cached (attempts : ℕ → AttemptResult) :
    ∀ (r i : ℕ) (last : Option FailCause) (b : PyVal) (n : ℕ),
      requestLoopAux attempts last i r = .success b n true → False := by
  intro r
  induction r with
  | zero => intro i last b n h; exact ReqResult.noConfusion h
  | succ r ih =>
      intro i last b n h
      unfold requestLoopAux at h
      cases hcl : classifyAttempt (attempts i) with
      | inl body =>
          simp only [hcl] at h
          injection h with h1 h2 h3
          exact Bool.noConfusion h3
      | inr c =>
          cases c with
          | rateLimited =>
              simp only [hcl] at h
              exact ih (i + 1) (some .rateLimited) b n h
          | clientError st =>
              simp only [hcl] at h
              by_cases hr : r = 0
              · rw [if_pos hr] at h; exact ReqResult.noConfusion h
              · rw [if_neg hr] at h; exact ih (i + 1) (some (.clientError st)) b n h
          | serverError st =>
              simp only [hcl] at h
              by_cases hr : r = 0
              · rw [if_pos hr] at h; exact ReqResult.noConfusion h
              · rw [if_neg hr] at h; exact ih (i + 1) (some (.serverError st)) b n h
          | parseError =>
              simp only [hcl] at h
              by_cases hr : r = 0
              · rw [if_pos hr] at h; exact ReqResult.noConfusion h
              · rw [if_neg hr] at h; exact ih (i + 1) (some .parseError) b n h
          | transport =>
              simp only [hcl] at h
              by_cases hr : r = 0
              · rw [if_pos hr] at h; exact ReqResult.noConfusion h
              · rw [if_neg hr] at h; exact ih (i + 1) (some .transport) b n h

/-- C10: the gateway's cache-hit test requires a truthy cached value.  A
cached falsy body (e.g. an empty JSON object) is not served: the request
proceeds exactly as on a cache miss, re-issuing the network call; and any
response that is served from the cache (zero attempts) is a truthy body
read from the cache. -/
theorem C10_falsy_cached_body_not_served :
    (∀ (v : PyVal) (attempts : ℕ → AttemptResult) (retries : ℕ),
       v.truthy = false →
       make_request "GET" true (some v) attempts retries =
         make_request "GET" true none attempts retries) ∧
    (∀ (method : String) (use_cache : Bool) (cached : Option PyVal)
       (attempts : ℕ → AttemptResult) (retries : ℕ) (b : PyVal) (n : ℕ),
       make_request method use_cache cached attempts retries = .success b n true →
       ∃ v, cached = some v ∧ v.truthy = true ∧ b = v ∧ n = 0) := by
  constructor
  · intro v attempts retries hv
    simp only [make_request, hv]
    rfl
  · intro method use_cache cached attempts retries b n h
    unfold make_request at h
    cases hcached : cached with
    | none =>
        simp only [hcached, Bool.and_false, Bool.false_eq_true, if_false] at h
        exact absurd h (fun hx => requestLoopAux_not_cached attempts _ 0 none b n hx)
    | some v =>
        simp only [hcached, Option.getD_some] at h
        by_cases htr : (use_cache && pyUpper method == "GET" && v.truthy) = true
        · rw [if_pos htr] at h
          injection h with h1 h2 h3
          refine ⟨v, rfl, ?_, h1.symm, h2.symm⟩
          simp only [Bool.and_eq_true] at htr
          exact htr.2
        · rw [if_neg htr] at h
          exact absurd h (fun hx => requestLoopAux_not_cached attempts _ 0 none b n hx)

/-- Witness for C10: a cached empty JSON object is bypassed (the call
behaves as a miss), and a truthy cached string is served with zero
attempts. -/
theorem C10_falsy_cached_body_not_served_witness :
    make_request "GET" true (some (.obj [])) (fun _ => .http 200 (some (.str "x"))) 3 =
      make_request "GET" true none (fun _ => .http 200 (some (.str "x"))) 3 ∧
    ∃ v, (some (PyVal.str "cached") : Option PyVal) = some v ∧ v.truthy = true ∧
      PyVal.str "cached" = v ∧ (0 : ℕ) = 0 :=
  ⟨C10_falsy_cached_body_not_served.1 (.obj [])
      (fun _ => .http 200 (some (.str "x"))) 3 rfl,
   C10_falsy_cached_body_not_served.2 "GET" true (some (.str "cached"))
      (fun _ => .http 200 (some (.str "x"))) 3 (.str "cached") 0 rfl⟩

end CinemaAgg
